import Mathlib

/-!
Shallow embedding of the client-side coordination core of the notes
application: the Remote Data Gateway (`src/data/noteApi.js`, class `NoteApi`),
the document-level Coordinator (`handleNoteOperation`,
`getButttonTextForOperation`, `notifyAndWaitForUpdate` in `index.js`), the two
List Views (`ActiveNote`, `ArchiveNote`), the Creation Form (`MakeNote`) and
the Loading-State Presenter (`HelperLoading`).

Conventions of the embedding:
* A JavaScript `Error` object is a `JsError` (name, message).
* The behaviour of the underlying `fetch` call is an explicit input
  (`NetBehavior`): either the request rejects with an error, or a response
  arrives after `arrivalMs` milliseconds with a status code and a body whose
  `json()` decoding either yields the `data` field or throws.
* Asynchronous interleaving is modelled by an executable event-loop state
  machine (`SysState`, `deliver`): the only nondeterminism in one
  intent-handling cycle is the order in which pending network responses are
  delivered, so a run is a fold of `deliver` over a list of `Delivery`s.
-/

/-- A JavaScript `Error` value: its `name` and `message` properties. -/
structure JsError where
  name : String
  message : String
  deriving DecidableEq, Repr

/-- A note as delivered by the remote service: identity token, title, body,
creation timestamp (modelled as a comparable number) and archived flag. -/
structure Note where
  id : String
  title : String
  body : String
  createdAt : Nat
  archived : Bool
  deriving DecidableEq, Repr

/-- Value returned by a successful `NoteApi.fetchWithTimeout` call: the raw
response handle (for DELETE/POST) or the decoded `data` field (for GET). -/
inductive FetchValue where
  | response (status : Nat)
  | data (d : List Note)
  deriving DecidableEq, Repr

/-- Result of a gateway call: success value or thrown `JsError`.
Mirrors a JavaScript promise that either resolves or rejects. -/
inductive JsResult where
  | ok (v : FetchValue)
  | err (e : JsError)
  deriving DecidableEq, Repr

/-- Outcome of the one underlying `fetch` of a `fetchWithTimeout` call:
either the fetch rejects with an error, or a response arrives after
`arrivalMs` milliseconds with the given status and a body whose `json()`
decoding yields the `data` field (`Sum.inl`) or throws (`Sum.inr`). -/
inductive NetBehavior where
  | fail (e : JsError)
  | respond (arrivalMs : Nat) (status : Nat) (body : Sum (List Note) JsError)
  deriving DecidableEq, Repr

/-- The `options` argument of `fetchWithTimeout`: `method` is `none` for a
plain GET request (no `method` key in the options object). -/
structure FetchOptions where
  method : Option String := none
  deriving DecidableEq, Repr

/-- One issued network request (URL and effective method); used to state that
each gateway operation performs exactly one request with no retries. -/
structure NetRequest where
  url : String
  method : String
  deriving DecidableEq, Repr

/-- Does `s` contain `pat` as a substring?  Models JavaScript
`String.prototype.includes`, used by every operation wrapper to recognise the
timeout error message. -/
def includesSubstring (s pat : String) : Bool :=
  (List.range (s.data.length + 1)).any (fun i => pat.data.isPrefixOf (s.data.drop i))

namespace NoteApi

/-- The `BASE_URL` constant of `src/data/noteApi.js`. -/
def BASE_URL : String := "https://notes-api.dicoding.dev/v2"

/-- The fixed request timeout: `setTimeout(() => controller.abort(), 5000)`. -/
def timeoutMs : Nat := 5000

/-- The error a `fetch` rejects with when its abort signal fires. -/
def abortError : JsError := { name := "AbortError", message := "The user aborted a request." }

/-- The message of the timeout error thrown by `fetchWithTimeout`. -/
def timeoutMessage : String := "Error: Request took longer than 5 seconds"

/-- The body of the `try` block of `fetchWithTimeout`: await the fetch (which
rejects with `AbortError` if no response arrived within `timeoutMs`), throw
`"Something went wrong"` when `status < 200 || status > 300`, return the raw
response for DELETE/POST, otherwise decode the body and return its `data`
field. -/
def fetchAttempt (options : FetchOptions) (net : NetBehavior) : JsResult :=
  match net with
  | .fail e => .err e
  | .respond arrivalMs status body =>
    if arrivalMs > timeoutMs then
      .err abortError
    else if status < 200 ∨ status > 300 then
      .err { name := "Error", message := "Something went wrong" }
    else if options.method = some "DELETE" ∨ options.method = some "POST" then
      .ok (.response status)
    else
      match body with
      | .inl d => .ok (.data d)
      | .inr e => .err e

/-- `NoteApi.fetchWithTimeout`: issues exactly one request and wraps
`fetchAttempt` in the `catch` that converts an `AbortError` into the timeout
error and rethrows anything else unchanged. -/
def fetchWithTimeout (url : String) (options : FetchOptions) (net : NetBehavior) :
    List NetRequest × JsResult :=
  ([{ url := url, method := options.method.getD "GET" }],
   match fetchAttempt options net with
   | .ok v => .ok v
   | .err e =>
     if e.name = "AbortError" then
       .err { name := "Error", message := timeoutMessage }
     else
       .err e)

/-- The `catch` block shared by all six operation wrappers: rethrow a timeout
error unchanged, replace anything else by the generic `"Something is error"`. -/
def opCatch (r : List NetRequest × JsResult) : List NetRequest × JsResult :=
  match r with
  | (reqs, .ok v) => (reqs, .ok v)
  | (reqs, .err e) =>
    if includesSubstring e.message "Request took longer" then
      (reqs, .err e)
    else
      (reqs, .err { name := "Error", message := "Something is error" })

/-- `NoteApi.getActiveNote`: GET `BASE_URL/notes` through `fetchWithTimeout`. -/
def getActiveNote (net : NetBehavior) : List NetRequest × JsResult :=
  opCatch (fetchWithTimeout (BASE_URL ++ "/notes") {} net)

/-- `NoteApi.getArchiveNote`: GET `BASE_URL/notes/archived`. -/
def getArchiveNote (net : NetBehavior) : List NetRequest × JsResult :=
  opCatch (fetchWithTimeout (BASE_URL ++ "/notes/archived") {} net)

/-- `NoteApi.archiveNote`: POST `BASE_URL/notes/{noteId}/archive`. -/
def archiveNote (noteId : String) (net : NetBehavior) : List NetRequest × JsResult :=
  opCatch (fetchWithTimeout (BASE_URL ++ "/notes/" ++ noteId ++ "/archive")
    { method := some "POST" } net)

/-- `NoteApi.unarchiveNote`: POST `BASE_URL/notes/{noteId}/unarchive`. -/
def unarchiveNote (noteId : String) (net : NetBehavior) : List NetRequest × JsResult :=
  opCatch (fetchWithTimeout (BASE_URL ++ "/notes/" ++ noteId ++ "/unarchive")
    { method := some "POST" } net)

/-- The note payload of `NoteApi.createNote` (`{title, body}`). -/
structure NoteInput where
  title : String
  body : String
  deriving DecidableEq, Repr

/-- `NoteApi.createNote`: POST `BASE_URL/notes` with the note as JSON body. -/
def createNote (_note : NoteInput) (net : NetBehavior) : List NetRequest × JsResult :=
  opCatch (fetchWithTimeout (BASE_URL ++ "/notes") { method := some "POST" } net)

/-- `NoteApi.deleteNote`: DELETE `BASE_URL/notes/{noteId}`. -/
def deleteNote (noteId : String) (net : NetBehavior) : List NetRequest × JsResult :=
  opCatch (fetchWithTimeout (BASE_URL ++ "/notes/" ++ noteId)
    { method := some "DELETE" } net)

end NoteApi

/-- The six static operation functions of `NoteApi`, as first-class values.
`index.js` compares operation functions by identity
(`operation === NoteApi.createNote` etc.); distinct function objects are
modelled by distinct constructors. -/
inductive ApiOperation where
  | createNote
  | deleteNote
  | archiveNote
  | unarchiveNote
  | getActiveNote
  | getArchiveNote
  deriving DecidableEq, Repr, Fintype

/-- Is this one of the four write operations dispatched by the document-level
intent listeners (`note-created`, `note-deleted`, `note-archived`,
`note-unarchived`)? -/
def isWriteOperation : ApiOperation → Bool
  | .createNote => true
  | .deleteNote => true
  | .archiveNote => true
  | .unarchiveNote => true
  | _ => false

/-- `getButttonTextForOperation` from `index.js`, including its duplicated
comparison: the branch meant for `Unarchive` compares against
`NoteApi.archiveNote` again, so it is unreachable. -/
def getButttonTextForOperation (operation : ApiOperation) : String :=
  if operation = ApiOperation.createNote then "Make Note"
  else if operation = ApiOperation.deleteNote then "Delete"
  else if operation = ApiOperation.archiveNote then "Archive"
  else if operation = ApiOperation.archiveNote then "Unarchive"
  else "Submit"

/-- Observable events of one intent-handling cycle, in the order they are
performed by the coordinator (`index.js`), the Loading-State Presenter
(`HelperLoading`) and the two List Views. -/
inductive Ev where
  | showBusy
  | gatewayCall (op : ApiOperation)
  | gatewayOk
  | gatewayErr
  | notesUpdatedBroadcast
  | activeFetchStart
  | archiveFetchStart
  | activeFetchDone
  | archiveFetchDone
  | notesUpdateComplete
  | alertShown
  | logShown
  | hideIdle (label : String)
  deriving DecidableEq, Repr

/-- Progress of `handleNoteOperation` through its awaits: waiting on the
gateway call, waiting for the `notes-update-complete` acknowledgement, or
finished. -/
inductive CoordPhase where
  | awaitingGateway
  | awaitingAck
  | finished
  deriving DecidableEq, Repr

/-- State of one intent-handling cycle: the triggering control (busy flag and
label), the coordinator's phase, which view re-fetches are in flight, and the
trace of events performed so far. -/
structure SysState where
  op : ApiOperation
  buttonBusy : Bool
  buttonLabel : String
  coordPhase : CoordPhase
  activeFetchPending : Bool
  archiveFetchPending : Bool
  trace : List Ev
  deriving DecidableEq, Repr

/-- The synchronous prefix of an intent dispatch: the document-level listener
calls `HelperLoading.showLoading(button)` and `handleNoteOperation` runs up to
its first await (`await operation.call(NoteApi, noteData)`). -/
def intentDispatch (op : ApiOperation) : SysState :=
  { op := op
    buttonBusy := true
    buttonLabel := "Loading"
    coordPhase := .awaitingGateway
    activeFetchPending := false
    archiveFetchPending := false
    trace := [.showBusy, .gatewayCall op] }

/-- A network completion delivered by the event loop: the gateway call
settles (successfully or not), or one view's re-fetch settles. -/
inductive Delivery where
  | gatewayResult (ok : Bool)
  | activeFetchResult (ok : Bool)
  | archiveFetchResult (ok : Bool)
  deriving DecidableEq, Repr

/-- Deliver one network completion and run the resulting synchronous cascade:

* gateway success — `handleNoteOperation` resumes into
  `notifyAndWaitForUpdate`, which registers the once-listener and dispatches
  `notes-updated`; both List Views' `handleNotesUpdated` handlers run
  synchronously up to their fetch awaits;
* gateway failure — the `catch` block alerts and restores the idle label via
  `getButttonTextForOperation`; no `notes-updated` is dispatched;
* active re-fetch settles — `ActiveNote.fetchNotes` renders (or alerts, its
  own `catch` swallowing the error), then `handleNotesUpdated` dispatches
  `notes-update-complete`, which resolves the coordinator's pending wait, and
  `handleNoteOperation` hides the loading state;
* archive re-fetch settles — `ArchiveNote.fetchArchivedNotes` renders (or
  logs); no acknowledgement is sent. -/
def deliver (st : SysState) (d : Delivery) : SysState :=
  match d with
  | .gatewayResult ok =>
    if st.coordPhase = .awaitingGateway then
      if ok then
        { st with
          coordPhase := .awaitingAck
          activeFetchPending := true
          archiveFetchPending := true
          trace := st.trace ++
            [.gatewayOk, .notesUpdatedBroadcast, .activeFetchStart, .archiveFetchStart] }
      else
        { st with
          coordPhase := .finished
          buttonBusy := false
          buttonLabel := getButttonTextForOperation st.op
          trace := st.trace ++
            [.gatewayErr, .alertShown, .hideIdle (getButttonTextForOperation st.op)] }
    else st
  | .activeFetchResult ok =>
    if st.activeFetchPending then
      let evs := (if ok then [Ev.activeFetchDone] else [Ev.alertShown]) ++ [Ev.notesUpdateComplete]
      if st.coordPhase = .awaitingAck then
        { st with
          activeFetchPending := false
          coordPhase := .finished
          buttonBusy := false
          buttonLabel := getButttonTextForOperation st.op
          trace := st.trace ++ evs ++ [.hideIdle (getButttonTextForOperation st.op)] }
      else
        { st with activeFetchPending := false, trace := st.trace ++ evs }
    else st
  | .archiveFetchResult ok =>
    if st.archiveFetchPending then
      { st with
        archiveFetchPending := false
        trace := st.trace ++ (if ok then [Ev.archiveFetchDone] else [Ev.logShown]) }
    else st

/-- One intent-handling cycle: the synchronous dispatch prefix followed by a
schedule of network completions. -/
def run (op : ApiOperation) (ds : List Delivery) : SysState :=
  ds.foldl deliver (intentDispatch op)

/-- The two possible schedules of a fully successful cycle: the gateway call
succeeds first (the re-fetches are only issued by the `notes-updated`
broadcast), then the two view re-fetches succeed in either order. -/
def successSchedules : List (List Delivery) :=
  [[.gatewayResult true, .activeFetchResult true, .archiveFetchResult true],
   [.gatewayResult true, .archiveFetchResult true, .activeFetchResult true]]

/-- Number of occurrences of `e` in the trace `tr`. -/
def countEv (e : Ev) (tr : List Ev) : Nat :=
  (tr.filter (fun x => x = e)).length

/-- Is this event a `HelperLoading.hideLoading` call (idle restoration)? -/
def isHideIdle : Ev → Bool
  | .hideIdle _ => true
  | _ => false

/-- Number of idle restorations in the trace. -/
def countIdle (tr : List Ev) : Nat :=
  (tr.filter isHideIdle).length

/-- The portion of the trace performed strictly before the first idle
restoration of the triggering control. -/
def traceBeforeIdle (tr : List Ev) : List Ev :=
  tr.takeWhile (fun e => !(isHideIdle e))

/-- What one List View render produces: whether the empty-state placeholder
(`There is no note`) is shown, and the `note-item` children appended to the
notes container, in document order. -/
structure RenderOutput where
  emptyMessageShown : Bool
  itemOrder : List Note
  deriving DecidableEq, Repr

/-- `ActiveNote.render` (in `active-note.js`): shows the placeholder when
`this._notes.length === 0`, always creates the notes container, and appends
one `note-item` per note of `this._notes.reverse()`. -/
def activeRender (notes : List Note) : RenderOutput :=
  { emptyMessageShown := notes.length = 0
    itemOrder := notes.reverse }

/-- `ArchiveNote.render` (in `archive-note.js`): shows the placeholder when
`this._notes.length === 0`, otherwise creates the container and appends one
`note-item` per note of `this._notes` in its given order (no reversal). -/
def archiveRender (notes : List Note) : RenderOutput :=
  { emptyMessageShown := notes.length = 0
    itemOrder := if notes.length > 0 then notes else [] }

/-- State owned by one List View: its transient note collection. -/
structure ViewState where
  notes : List Note
  deriving DecidableEq, Repr

/-- Outcome of a view's gateway read, as seen inside `fetchNotes` /
`fetchArchivedNotes`: the decoded collection or a thrown error. -/
inductive ReadResult where
  | ok (notes : List Note)
  | err (e : JsError)
  deriving DecidableEq, Repr

/-- Side effects a view's fetch routine can perform. -/
inductive ViewEffect where
  | rendered
  | alerted
  | logged
  deriving DecidableEq, Repr

/-- `ActiveNote.fetchNotes`: on success assign `this._notes` and render; on
failure `alert(error.message)` — the collection and the rendered content are
left untouched. -/
def activeFetchNotes (st : ViewState) (r : ReadResult) : ViewState × List ViewEffect :=
  match r with
  | .ok d => ({ notes := d }, [.rendered])
  | .err _ => (st, [.alerted])

/-- `ArchiveNote.fetchArchivedNotes`: on success assign `this._notes` and
render; on failure `console.log(error)` — the collection and the rendered
content are left untouched. -/
def archiveFetchNotes (st : ViewState) (r : ReadResult) : ViewState × List ViewEffect :=
  match r with
  | .ok d => ({ notes := d }, [.rendered])
  | .err _ => (st, [.logged])

namespace MakeNote

/-- `this._maxTitleLength` of the `MakeNote` component. -/
def maxTitleLength : Nat := 50

/-- `this._titleMinLength` of the `MakeNote` component. -/
def titleMinLength : Nat := 3

/-- `this._contentMinLength` of the `MakeNote` component. -/
def contentMinLength : Nat := 10

/-- `MakeNote.validateTitle`: returns the error text written into
`#titleError` and the boolean result. -/
def validateTitle (title : String) : String × Bool :=
  if title.trim.length < titleMinLength then
    ("Title at least 3 character", false)
  else
    ("", true)

/-- `MakeNote.validateContent`: returns the error text written into
`#bodyError` and the boolean result. -/
def validateContent (content : String) : String × Bool :=
  if content.trim.length < contentMinLength then
    ("Content at least 10 character", false)
  else
    ("", true)

/-- `MakeNote.updateCharacterCount`: the text written into the counter span.
JavaScript number subtraction can go negative, hence `Int`. -/
def updateCharacterCount (currentLength : Nat) : String :=
  "Remaining Character: " ++ toString ((maxTitleLength : Int) - (currentLength : Int))

/-- State of the Creation Form's fields visible to `handleFormSubmit`. -/
structure FormState where
  titleValue : String
  contentValue : String
  charCountText : String
  titleErrorText : String
  bodyErrorText : String
  deriving DecidableEq, Repr

/-- The detail object of the `note-created` intent event:
`{title, body, button}` where `button` is the triggering control. -/
structure NoteCreatedDetail where
  title : String
  body : String
  button : Nat
  deriving DecidableEq, Repr

/-- What one form submission does. -/
structure SubmitResult where
  preventedDefault : Bool
  emitted : Option NoteCreatedDetail
  newState : FormState
  deriving DecidableEq, Repr

/-- `MakeNote.handleFormSubmit`: always prevents default navigation, always
dispatches `note-created` with the current field values and the submit
button, then resets the form fields (`event.target.reset()` clears the input
and textarea but not the error paragraphs) and the character counter. -/
def handleFormSubmit (st : FormState) (button : Nat) : SubmitResult :=
  { preventedDefault := true
    emitted := some { title := st.titleValue, body := st.contentValue, button := button }
    newState :=
      { titleValue := ""
        contentValue := ""
        charCountText := updateCharacterCount 0
        titleErrorText := st.titleErrorText
        bodyErrorText := st.bodyErrorText } }

end MakeNote

/-- A `fetchWithTimeout` call whose response arrives in time reduces to the
status check, the method dispatch and the body decoding (a decoding error
still passes through the `AbortError` check of the `catch` block). -/
theorem fetchWithTimeout_respond_intime (url : String) (opts : FetchOptions)
    (t s : Nat) (body : Sum (List Note) JsError) (ht : t ≤ NoteApi.timeoutMs) :
    NoteApi.fetchWithTimeout url opts (.respond t s body) =
      ([{ url := url, method := opts.method.getD "GET" }],
       if s < 200 ∨ s > 300 then
         .err { name := "Error", message := "Something went wrong" }
       else if opts.method = some "DELETE" ∨ opts.method = some "POST" then
         .ok (.response s)
       else
         match body with
         | .inl d => .ok (.data d)
         | .inr e =>
           if e.name = "AbortError" then
             .err { name := "Error", message := NoteApi.timeoutMessage }
           else
             .err e) := by
  have hnt : ¬ t > NoteApi.timeoutMs := by omega
  simp only [NoteApi.fetchWithTimeout, NoteApi.fetchAttempt]
  rw [if_neg hnt]
  by_cases h1 : s < 200 ∨ s > 300
  · simp [h1]
  · by_cases h2 : opts.method = some "DELETE" ∨ opts.method = some "POST"
    · simp [h1, h2]
    · cases body with
      | inl d => simp [h1, h2]
      | inr e =>
        by_cases h3 : e.name = "AbortError"
        · simp [h1, h2, h3]
        · simp [h1, h2, h3]

/-- A `fetchWithTimeout` call whose response arrives only after the timeout
fires fails with the distinguishable timeout error. -/
theorem fetchWithTimeout_timeout (url : String) (opts : FetchOptions)
    (t s : Nat) (body : Sum (List Note) JsError) (ht : t > NoteApi.timeoutMs) :
    NoteApi.fetchWithTimeout url opts (.respond t s body) =
      ([{ url := url, method := opts.method.getD "GET" }],
       .err { name := "Error", message := NoteApi.timeoutMessage }) := by
  simp only [NoteApi.fetchWithTimeout, NoteApi.fetchAttempt]
  rw [if_pos ht]
  simp [NoteApi.abortError]

/-- The wrapper `catch` on a successful result is the identity. -/
theorem opCatch_ok (reqs : List NetRequest) (v : FetchValue) :
    NoteApi.opCatch (reqs, .ok v) = (reqs, .ok v) := by
  simp only [NoteApi.opCatch]

/-- The wrapper `catch` on a thrown error: rethrow if the message contains
`Request took longer`, otherwise replace by the generic error. -/
theorem opCatch_err (reqs : List NetRequest) (e : JsError) :
    NoteApi.opCatch (reqs, .err e) =
      (reqs,
       if includesSubstring e.message "Request took longer" then .err e
       else .err { name := "Error", message := "Something is error" }) := by
  simp only [NoteApi.opCatch]
  split <;> rfl

/-- The wrapper `catch` never changes the list of issued requests. -/
theorem opCatch_fst (r : List NetRequest × JsResult) :
    (NoteApi.opCatch r).1 = r.1 := by
  obtain ⟨reqs, res⟩ := r
  cases res with
  | ok v => rfl
  | err e =>
    rw [opCatch_err]

/-- The timeout error message carries the marker every wrapper tests for. -/
theorem timeoutMessage_includes_marker :
    includesSubstring NoteApi.timeoutMessage "Request took longer" = true := by
  decide

/-- The bad-status error message does not carry the timeout marker. -/
theorem somethingWentWrong_not_timeout :
    includesSubstring "Something went wrong" "Request took longer" = false := by
  decide

/-- A `fetchWithTimeout` call whose underlying fetch rejects with a
non-abort error rethrows that error unchanged. -/
theorem fetchWithTimeout_fail (url : String) (opts : FetchOptions)
    (e : JsError) (he : e.name ≠ "AbortError") :
    NoteApi.fetchWithTimeout url opts (.fail e) =
      ([{ url := url, method := opts.method.getD "GET" }], .err e) := by
  simp only [NoteApi.fetchWithTimeout, NoteApi.fetchAttempt]
  simp [he]

/-- Claim C1, counterexample: in the admissible successful-create schedule
where the active re-fetch settles before the archived one, the archived-set
view has completed no re-fetch at the moment the triggering control is
restored to idle (its single re-fetch completes only afterwards), so it is
not the case that both List Views have completed exactly one re-fetch before
idle restoration. -/
theorem c1_counterexample :
    ([Delivery.gatewayResult true, Delivery.activeFetchResult true,
      Delivery.archiveFetchResult true] ∈ successSchedules) ∧
    countEv .archiveFetchDone (traceBeforeIdle (run .createNote
      [.gatewayResult true, .activeFetchResult true, .archiveFetchResult true]).trace) = 0 ∧
    countIdle (run .createNote
      [.gatewayResult true, .activeFetchResult true, .archiveFetchResult true]).trace = 1 ∧
    countEv .archiveFetchDone (run .createNote
      [.gatewayResult true, .activeFetchResult true, .archiveFetchResult true]).trace = 1 := by
  decide

/-- Claim C1, amended: after any successful write operation, under every
admissible schedule the active-set view has completed exactly one re-fetch
before the triggering control is restored to idle, and the archived-set
view's single re-fetch has been started — but not necessarily completed —
before that restoration; the control is restored to idle exactly once. -/
theorem c1_active_refetch_gates_idle (op : ApiOperation)
    (hop : isWriteOperation op = true)
    (ds : List Delivery) (hds : ds ∈ successSchedules) :
    countEv .activeFetchDone (traceBeforeIdle (run op ds).trace) = 1 ∧
    countEv .archiveFetchStart (traceBeforeIdle (run op ds).trace) = 1 ∧
    countEv .archiveFetchDone (run op ds).trace = 1 ∧
    countIdle (run op ds).trace = 1 ∧
    (run op ds).buttonBusy = false := by
  fin_cases hds <;> revert op hop <;> decide

/-- Claim C1, witness: the amended theorem applied to a successful delete in
the schedule where the archived re-fetch settles first. -/
theorem c1_active_refetch_gates_idle_witness :
    countEv .activeFetchDone (traceBeforeIdle (run .deleteNote
      [.gatewayResult true, .archiveFetchResult true, .activeFetchResult true]).trace) = 1 ∧
    countEv .archiveFetchStart (traceBeforeIdle (run .deleteNote
      [.gatewayResult true, .archiveFetchResult true, .activeFetchResult true]).trace) = 1 ∧
    countEv .archiveFetchDone (run .deleteNote
      [.gatewayResult true, .archiveFetchResult true, .activeFetchResult true]).trace = 1 ∧
    countIdle (run .deleteNote
      [.gatewayResult true, .archiveFetchResult true, .activeFetchResult true]).trace = 1 ∧
    (run .deleteNote
      [.gatewayResult true, .archiveFetchResult true, .activeFetchResult true]).buttonBusy = false :=
  c1_active_refetch_gates_idle .deleteNote (by decide)
    [.gatewayResult true, .archiveFetchResult true, .activeFetchResult true] (by decide)

/-- Claim C2, counterexample: when the gateway call for a create intent
fails, the coordinator restores the triggering control to idle without ever
broadcasting `notes-updated` or waiting for `notes-update-complete`, so the
refresh protocol is not driven on failure. -/
theorem c2_counterexample :
    countEv .notesUpdatedBroadcast (run .createNote [.gatewayResult false]).trace = 0 ∧
    countEv .notesUpdateComplete (run .createNote [.gatewayResult false]).trace = 0 ∧
    countIdle (run .createNote [.gatewayResult false]).trace = 1 := by
  decide

/-- Claim C2, amended: for each of the four intent kinds, when the Gateway
call fails the coordinator's `catch` block alerts and restores the triggering
control to idle with the operation-appropriate label, without broadcasting
`notes-updated` and without waiting for any acknowledgement — the refresh
protocol runs only on success. -/
theorem c2_failure_skips_refresh (op : ApiOperation)
    (hop : isWriteOperation op = true) :
    (run op [.gatewayResult false]).trace =
      [.showBusy, .gatewayCall op, .gatewayErr, .alertShown,
       .hideIdle (getButttonTextForOperation op)] ∧
    (run op [.gatewayResult false]).buttonBusy = false ∧
    countEv .notesUpdatedBroadcast (run op [.gatewayResult false]).trace = 0 := by
  revert op hop
  decide

/-- Claim C2, witness: the amended theorem applied to a failing archive
intent. -/
theorem c2_failure_skips_refresh_witness :
    (run .archiveNote [.gatewayResult false]).trace =
      [.showBusy, .gatewayCall .archiveNote, .gatewayErr, .alertShown,
       .hideIdle (getButttonTextForOperation .archiveNote)] ∧
    (run .archiveNote [.gatewayResult false]).buttonBusy = false ∧
    countEv .notesUpdatedBroadcast (run .archiveNote [.gatewayResult false]).trace = 0 :=
  c2_failure_skips_refresh .archiveNote (by decide)

/-- Claim C3, counterexample: the restoration label for an unarchive intent
is `"Submit"` — the generic fallback that `getButttonTextForOperation` also
returns for unrelated operations such as `getActiveNote` — not a label
specific to the unarchive operation; in a fully successful unarchive cycle
the control is restored with that fallback label. -/
theorem c3_counterexample :
    getButttonTextForOperation .unarchiveNote = "Submit" ∧
    getButttonTextForOperation .getActiveNote = "Submit" ∧
    ApiOperation.unarchiveNote ≠ ApiOperation.getActiveNote ∧
    (run .unarchiveNote [.gatewayResult true, .activeFetchResult true,
      .archiveFetchResult true]).buttonLabel = "Submit" := by
  decide

/-- Claim C3, amended: for all four intent kinds, a successful Gateway call
is followed by exactly one broadcast of `notes-updated` and exactly one
restoration of the triggering control to idle, with label `Make Note` for
create, `Delete` for delete, `Archive` for archive, and the generic fallback
label `Submit` for unarchive (the `Unarchive` branch compares against
`archiveNote` and is unreachable). -/
theorem c3_success_one_broadcast_one_idle (op : ApiOperation)
    (hop : isWriteOperation op = true)
    (ds : List Delivery) (hds : ds ∈ successSchedules) :
    countEv .notesUpdatedBroadcast (run op ds).trace = 1 ∧
    countIdle (run op ds).trace = 1 ∧
    countEv (.hideIdle (getButttonTextForOperation op)) (run op ds).trace = 1 ∧
    (run op ds).buttonLabel = getButttonTextForOperation op ∧
    (run op ds).buttonBusy = false ∧
    getButttonTextForOperation .createNote = "Make Note" ∧
    getButttonTextForOperation .deleteNote = "Delete" ∧
    getButttonTextForOperation .archiveNote = "Archive" ∧
    getButttonTextForOperation .unarchiveNote = "Submit" := by
  fin_cases hds <;> revert op hop <;> decide

/-- Claim C3, witness: the amended theorem applied to a successful create in
the schedule where the archived re-fetch settles first. -/
theorem c3_success_one_broadcast_one_idle_witness :
    countEv .notesUpdatedBroadcast (run .createNote
      [.gatewayResult true, .archiveFetchResult true, .activeFetchResult true]).trace = 1 ∧
    countIdle (run .createNote
      [.gatewayResult true, .archiveFetchResult true, .activeFetchResult true]).trace = 1 ∧
    countEv (.hideIdle (getButttonTextForOperation .createNote)) (run .createNote
      [.gatewayResult true, .archiveFetchResult true, .activeFetchResult true]).trace = 1 ∧
    (run .createNote
      [.gatewayResult true, .archiveFetchResult true, .activeFetchResult true]).buttonLabel =
      getButttonTextForOperation .createNote ∧
    (run .createNote
      [.gatewayResult true, .archiveFetchResult true, .activeFetchResult true]).buttonBusy = false ∧
    getButttonTextForOperation .createNote = "Make Note" ∧
    getButttonTextForOperation .deleteNote = "Delete" ∧
    getButttonTextForOperation .archiveNote = "Archive" ∧
    getButttonTextForOperation .unarchiveNote = "Submit" :=
  c3_success_one_broadcast_one_idle .createNote (by decide)
    [.gatewayResult true, .archiveFetchResult true, .activeFetchResult true] (by decide)

/-- Claim C4: a response with status exactly `300` is accepted as success
(both for writes, which return the raw response, and for reads, which decode
the body), while a status of `199`, `301`, or generally any status strictly
below `200` or strictly above `300`, makes `fetchWithTimeout` throw
`Something went wrong`, which the operation wrappers turn into the generic
`Something is error`. -/
theorem c4_status_acceptance_window (url : String) (opts : FetchOptions)
    (body : Sum (List Note) JsError) (d : List Note) (t s : Nat)
    (ht : t ≤ NoteApi.timeoutMs) (hs : s < 200 ∨ s > 300) :
    (NoteApi.fetchWithTimeout url { method := some "POST" } (.respond t 300 body)).2 =
      .ok (.response 300) ∧
    (NoteApi.fetchWithTimeout url {} (.respond t 300 (.inl d))).2 = .ok (.data d) ∧
    (NoteApi.fetchWithTimeout url opts (.respond t s body)).2 =
      .err { name := "Error", message := "Something went wrong" } ∧
    (NoteApi.opCatch (NoteApi.fetchWithTimeout url opts (.respond t s body))).2 =
      .err { name := "Error", message := "Something is error" } ∧
    (NoteApi.fetchWithTimeout url opts (.respond t 199 body)).2 =
      .err { name := "Error", message := "Something went wrong" } ∧
    (NoteApi.fetchWithTimeout url opts (.respond t 301 body)).2 =
      .err { name := "Error", message := "Something went wrong" } := by
  have hnot300 : ¬ ((300 : Nat) < 200 ∨ (300 : Nat) > 300) := by omega
  refine ⟨?_, ?_, ?_, ?_, ?_, ?_⟩
  · rw [fetchWithTimeout_respond_intime url { method := some "POST" } t 300 body ht]
    simp [hnot300]
  · rw [fetchWithTimeout_respond_intime url {} t 300 (.inl d) ht]
    simp [hnot300]
  · rw [fetchWithTimeout_respond_intime url opts t s body ht]
    simp [hs]
  · rw [fetchWithTimeout_respond_intime url opts t s body ht]
    rw [if_pos hs, opCatch_err]
    simp [somethingWentWrong_not_timeout]
  · rw [fetchWithTimeout_respond_intime url opts t 199 body ht]
    simp
  · rw [fetchWithTimeout_respond_intime url opts t 301 body ht]
    simp

/-- Claim C4, witness: the boundary theorem applied at status `199` with an
in-time GET response. -/
theorem c4_status_acceptance_window_witness :
    (NoteApi.fetchWithTimeout "u" { method := some "POST" }
      (.respond 0 300 (.inl []))).2 = .ok (.response 300) ∧
    (NoteApi.fetchWithTimeout "u" {} (.respond 0 300 (.inl []))).2 = .ok (.data []) ∧
    (NoteApi.fetchWithTimeout "u" {} (.respond 0 199 (.inl []))).2 =
      .err { name := "Error", message := "Something went wrong" } ∧
    (NoteApi.opCatch (NoteApi.fetchWithTimeout "u" {} (.respond 0 199 (.inl [])))).2 =
      .err { name := "Error", message := "Something is error" } ∧
    (NoteApi.fetchWithTimeout "u" {} (.respond 0 199 (.inl []))).2 =
      .err { name := "Error", message := "Something went wrong" } ∧
    (NoteApi.fetchWithTimeout "u" {} (.respond 0 301 (.inl []))).2 =
      .err { name := "Error", message := "Something went wrong" } :=
  c4_status_acceptance_window "u" {} (.inl []) [] 0 199 (by decide) (by omega)

/-- Claim C5: when no response arrives within `timeoutMs = 5000` ms the call
fails with the distinguishable timeout error, whose message contains
`Request took longer`; every one of the six operation wrappers propagates it
unchanged; any other failure (here: a rejected fetch whose message lacks the
marker) is rethrown as the generic `Something is error`; and after a gateway
failure the triggering control is still restored to idle exactly once. -/
theorem c5_timeout_distinguishable_and_idle (url noteId : String)
    (note : NoteApi.NoteInput) (opts : FetchOptions)
    (body : Sum (List Note) JsError) (t s : Nat)
    (ht : t > NoteApi.timeoutMs) (e : JsError)
    (he1 : e.name ≠ "AbortError")
    (he2 : includesSubstring e.message "Request took longer" = false)
    (op : ApiOperation) (hop : isWriteOperation op = true) :
    NoteApi.timeoutMs = 5000 ∧
    (NoteApi.fetchWithTimeout url opts (.respond t s body)).2 =
      .err { name := "Error", message := NoteApi.timeoutMessage } ∧
    includesSubstring NoteApi.timeoutMessage "Request took longer" = true ∧
    (NoteApi.getActiveNote (.respond t s body)).2 =
      .err { name := "Error", message := NoteApi.timeoutMessage } ∧
    (NoteApi.getArchiveNote (.respond t s body)).2 =
      .err { name := "Error", message := NoteApi.timeoutMessage } ∧
    (NoteApi.createNote note (.respond t s body)).2 =
      .err { name := "Error", message := NoteApi.timeoutMessage } ∧
    (NoteApi.archiveNote noteId (.respond t s body)).2 =
      .err { name := "Error", message := NoteApi.timeoutMessage } ∧
    (NoteApi.unarchiveNote noteId (.respond t s body)).2 =
      .err { name := "Error", message := NoteApi.timeoutMessage } ∧
    (NoteApi.deleteNote noteId (.respond t s body)).2 =
      .err { name := "Error", message := NoteApi.timeoutMessage } ∧
    (NoteApi.getActiveNote (.fail e)).2 =
      .err { name := "Error", message := "Something is error" } ∧
    (NoteApi.createNote note (.fail e)).2 =
      .err { name := "Error", message := "Something is error" } ∧
    (run op [.gatewayResult false]).buttonBusy = false ∧
    countIdle (run op [.gatewayResult false]).trace = 1 := by
  refine ⟨rfl, ?_, timeoutMessage_includes_marker, ?_, ?_, ?_, ?_, ?_, ?_, ?_, ?_, ?_, ?_⟩
  · rw [fetchWithTimeout_timeout url opts t s body ht]
  · rw [NoteApi.getActiveNote, fetchWithTimeout_timeout _ _ _ _ _ ht, opCatch_err]
    simp [timeoutMessage_includes_marker]
  · rw [NoteApi.getArchiveNote, fetchWithTimeout_timeout _ _ _ _ _ ht, opCatch_err]
    simp [timeoutMessage_includes_marker]
  · rw [NoteApi.createNote, fetchWithTimeout_timeout _ _ _ _ _ ht, opCatch_err]
    simp [timeoutMessage_includes_marker]
  · rw [NoteApi.archiveNote, fetchWithTimeout_timeout _ _ _ _ _ ht, opCatch_err]
    simp [timeoutMessage_includes_marker]
  · rw [NoteApi.unarchiveNote, fetchWithTimeout_timeout _ _ _ _ _ ht, opCatch_err]
    simp [timeoutMessage_includes_marker]
  · rw [NoteApi.deleteNote, fetchWithTimeout_timeout _ _ _ _ _ ht, opCatch_err]
    simp [timeoutMessage_includes_marker]
  · rw [NoteApi.getActiveNote, fetchWithTimeout_fail _ _ _ he1, opCatch_err]
    simp [he2]
  · rw [NoteApi.createNote, fetchWithTimeout_fail _ _ _ he1, opCatch_err]
    simp [he2]
  · revert op hop
    decide
  · revert op hop
    decide

/-- Claim C5, witness: the timeout theorem applied to a response arriving at
5001 ms and a rejected fetch with a `TypeError`. -/
theorem c5_timeout_distinguishable_and_idle_witness :
    NoteApi.timeoutMs = 5000 ∧
    (NoteApi.fetchWithTimeout "u" {} (.respond 5001 200 (.inl []))).2 =
      .err { name := "Error", message := NoteApi.timeoutMessage } ∧
    includesSubstring NoteApi.timeoutMessage "Request took longer" = true ∧
    (NoteApi.getActiveNote (.respond 5001 200 (.inl []))).2 =
      .err { name := "Error", message := NoteApi.timeoutMessage } ∧
    (NoteApi.getArchiveNote (.respond 5001 200 (.inl []))).2 =
      .err { name := "Error", message := NoteApi.timeoutMessage } ∧
    (NoteApi.createNote { title := "T", body := "B" } (.respond 5001 200 (.inl []))).2 =
      .err { name := "Error", message := NoteApi.timeoutMessage } ∧
    (NoteApi.archiveNote "1" (.respond 5001 200 (.inl []))).2 =
      .err { name := "Error", message := NoteApi.timeoutMessage } ∧
    (NoteApi.unarchiveNote "1" (.respond 5001 200 (.inl []))).2 =
      .err { name := "Error", message := NoteApi.timeoutMessage } ∧
    (NoteApi.deleteNote "1" (.respond 5001 200 (.inl []))).2 =
      .err { name := "Error", message := NoteApi.timeoutMessage } ∧
    (NoteApi.getActiveNote (.fail { name := "TypeError", message := "Failed to fetch" })).2 =
      .err { name := "Error", message := "Something is error" } ∧
    (NoteApi.createNote { title := "T", body := "B" }
      (.fail { name := "TypeError", message := "Failed to fetch" })).2 =
      .err { name := "Error", message := "Something is error" } ∧
    (run .createNote [.gatewayResult false]).buttonBusy = false ∧
    countIdle (run .createNote [.gatewayResult false]).trace = 1 :=
  c5_timeout_distinguishable_and_idle "u" "1" { title := "T", body := "B" } {}
    (.inl []) 5001 200 (by decide)
    { name := "TypeError", message := "Failed to fetch" } (by decide) (by decide)
    .createNote (by decide)

/-- Claim C6: the two read operations return the decoded `data` field of the
response body, the four write operations return the raw response handle and
never read the body (their result is invariant under any change of the
body), and every operation issues exactly one network request with no
retries. -/
theorem c6_reads_decode_writes_raw (net : NetBehavior) (noteId : String)
    (note : NoteApi.NoteInput) (d : List Note)
    (b1 b2 : Sum (List Note) JsError) (t s : Nat)
    (ht : t ≤ NoteApi.timeoutMs) (hs1 : 200 ≤ s) (hs2 : s ≤ 300) :
    (NoteApi.getActiveNote net).1.length = 1 ∧
    (NoteApi.getArchiveNote net).1.length = 1 ∧
    (NoteApi.createNote note net).1.length = 1 ∧
    (NoteApi.archiveNote noteId net).1.length = 1 ∧
    (NoteApi.unarchiveNote noteId net).1.length = 1 ∧
    (NoteApi.deleteNote noteId net).1.length = 1 ∧
    (NoteApi.getActiveNote (.respond t s (.inl d))).2 = .ok (.data d) ∧
    (NoteApi.getArchiveNote (.respond t s (.inl d))).2 = .ok (.data d) ∧
    (NoteApi.createNote note (.respond t s b1)).2 = .ok (.response s) ∧
    (NoteApi.archiveNote noteId (.respond t s b1)).2 = .ok (.response s) ∧
    (NoteApi.unarchiveNote noteId (.respond t s b1)).2 = .ok (.response s) ∧
    (NoteApi.deleteNote noteId (.respond t s b1)).2 = .ok (.response s) ∧
    NoteApi.createNote note (.respond t s b1) = NoteApi.createNote note (.respond t s b2) ∧
    NoteApi.archiveNote noteId (.respond t s b1) = NoteApi.archiveNote noteId (.respond t s b2) ∧
    NoteApi.unarchiveNote noteId (.respond t s b1) =
      NoteApi.unarchiveNote noteId (.respond t s b2) ∧
    NoteApi.deleteNote noteId (.respond t s b1) = NoteApi.deleteNote noteId (.respond t s b2) := by
  have hnot : ¬ (s < 200 ∨ s > 300) := by omega
  refine ⟨?_, ?_, ?_, ?_, ?_, ?_, ?_, ?_, ?_, ?_, ?_, ?_, ?_, ?_, ?_, ?_⟩
  · rw [NoteApi.getActiveNote, opCatch_fst]
    rfl
  · rw [NoteApi.getArchiveNote, opCatch_fst]
    rfl
  · rw [NoteApi.createNote, opCatch_fst]
    rfl
  · rw [NoteApi.archiveNote, opCatch_fst]
    rfl
  · rw [NoteApi.unarchiveNote, opCatch_fst]
    rfl
  · rw [NoteApi.deleteNote, opCatch_fst]
    rfl
  · rw [NoteApi.getActiveNote, fetchWithTimeout_respond_intime _ _ _ _ _ ht]
    simp [hnot, NoteApi.opCatch]
  · rw [NoteApi.getArchiveNote, fetchWithTimeout_respond_intime _ _ _ _ _ ht]
    simp [hnot, NoteApi.opCatch]
  · rw [NoteApi.createNote, fetchWithTimeout_respond_intime _ _ _ _ _ ht]
    simp [hnot, NoteApi.opCatch]
  · rw [NoteApi.archiveNote, fetchWithTimeout_respond_intime _ _ _ _ _ ht]
    simp [hnot, NoteApi.opCatch]
  · rw [NoteApi.unarchiveNote, fetchWithTimeout_respond_intime _ _ _ _ _ ht]
    simp [hnot, NoteApi.opCatch]
  · rw [NoteApi.deleteNote, fetchWithTimeout_respond_intime _ _ _ _ _ ht]
    simp [hnot, NoteApi.opCatch]
  · rw [NoteApi.createNote, NoteApi.createNote,
      fetchWithTimeout_respond_intime _ _ _ _ _ ht,
      fetchWithTimeout_respond_intime _ _ _ _ _ ht]
    simp [hnot]
  · rw [NoteApi.archiveNote, NoteApi.archiveNote,
      fetchWithTimeout_respond_intime _ _ _ _ _ ht,
      fetchWithTimeout_respond_intime _ _ _ _ _ ht]
    simp [hnot]
  · rw [NoteApi.unarchiveNote, NoteApi.unarchiveNote,
      fetchWithTimeout_respond_intime _ _ _ _ _ ht,
      fetchWithTimeout_respond_intime _ _ _ _ _ ht]
    simp [hnot]
  · rw [NoteApi.deleteNote, NoteApi.deleteNote,
      fetchWithTimeout_respond_intime _ _ _ _ _ ht,
      fetchWithTimeout_respond_intime _ _ _ _ _ ht]
    simp [hnot]

/-- Claim C6, witness: the read/write shape theorem applied at a well-formed
and a malformed body with status 200. -/
theorem c6_reads_decode_writes_raw_witness :
    (NoteApi.getActiveNote (.fail { name := "TypeError", message := "x" })).1.length = 1 ∧
    (NoteApi.getArchiveNote (.fail { name := "TypeError", message := "x" })).1.length = 1 ∧
    (NoteApi.createNote { title := "T", body := "B" }
      (.fail { name := "TypeError", message := "x" })).1.length = 1 ∧
    (NoteApi.archiveNote "1" (.fail { name := "TypeError", message := "x" })).1.length = 1 ∧
    (NoteApi.unarchiveNote "1" (.fail { name := "TypeError", message := "x" })).1.length = 1 ∧
    (NoteApi.deleteNote "1" (.fail { name := "TypeError", message := "x" })).1.length = 1 ∧
    (NoteApi.getActiveNote (.respond 0 200 (.inl []))).2 = .ok (.data []) ∧
    (NoteApi.getArchiveNote (.respond 0 200 (.inl []))).2 = .ok (.data []) ∧
    (NoteApi.createNote { title := "T", body := "B" } (.respond 0 200 (.inl []))).2 =
      .ok (.response 200) ∧
    (NoteApi.archiveNote "1" (.respond 0 200 (.inl []))).2 = .ok (.response 200) ∧
    (NoteApi.unarchiveNote "1" (.respond 0 200 (.inl []))).2 = .ok (.response 200) ∧
    (NoteApi.deleteNote "1" (.respond 0 200 (.inl []))).2 = .ok (.response 200) ∧
    NoteApi.createNote { title := "T", body := "B" } (.respond 0 200 (.inl [])) =
      NoteApi.createNote { title := "T", body := "B" }
        (.respond 0 200 (.inr { name := "SyntaxError", message := "Unexpected token" })) ∧
    NoteApi.archiveNote "1" (.respond 0 200 (.inl [])) =
      NoteApi.archiveNote "1"
        (.respond 0 200 (.inr { name := "SyntaxError", message := "Unexpected token" })) ∧
    NoteApi.unarchiveNote "1" (.respond 0 200 (.inl [])) =
      NoteApi.unarchiveNote "1"
        (.respond 0 200 (.inr { name := "SyntaxError", message := "Unexpected token" })) ∧
    NoteApi.deleteNote "1" (.respond 0 200 (.inl [])) =
      NoteApi.deleteNote "1"
        (.respond 0 200 (.inr { name := "SyntaxError", message := "Unexpected token" })) :=
  c6_reads_decode_writes_raw (.fail { name := "TypeError", message := "x" }) "1"
    { title := "T", body := "B" } [] (.inl [])
    (.inr { name := "SyntaxError", message := "Unexpected token" }) 0 200
    (by decide) (by decide) (by decide)

/-- Claim C7, counterexample: for a fetched archived collection of two notes
in ascending creation order, the archived-set view renders them in the
fetched order (it does not reverse), so the rendered items are not ordered
most-recently-created first. -/
theorem c7_counterexample :
    List.Pairwise (fun a b : Note => a.createdAt ≤ b.createdAt)
      [({ id := "1", title := "a", body := "x", createdAt := 1, archived := true } : Note),
       { id := "2", title := "b", body := "y", createdAt := 2, archived := true }] ∧
    (archiveRender
      [({ id := "1", title := "a", body := "x", createdAt := 1, archived := true } : Note),
       { id := "2", title := "b", body := "y", createdAt := 2, archived := true }]).itemOrder =
      [({ id := "1", title := "a", body := "x", createdAt := 1, archived := true } : Note),
       { id := "2", title := "b", body := "y", createdAt := 2, archived := true }] ∧
    ¬ List.Pairwise (fun a b : Note => b.createdAt ≤ a.createdAt)
      (archiveRender
        [({ id := "1", title := "a", body := "x", createdAt := 1, archived := true } : Note),
         { id := "2", title := "b", body := "y", createdAt := 2, archived := true }]).itemOrder := by
  decide

/-- Claim C7, amended: on a successful fetch, each view renders exactly one
Item View per note and shows the empty-state placeholder exactly when the
collection is empty; the active-set view renders the fetched collection
reversed (most-recently-created first when the service returns ascending
creation order), while the archived-set view renders the fetched collection
in its given order, without reversing. -/
theorem c7_render_order (notes : List Note)
    (hsorted : List.Pairwise (fun a b : Note => a.createdAt ≤ b.createdAt) notes) :
    ((activeRender notes).emptyMessageShown = true ↔ notes = []) ∧
    (activeRender notes).itemOrder = notes.reverse ∧
    (activeRender notes).itemOrder.length = notes.length ∧
    List.Pairwise (fun a b : Note => b.createdAt ≤ a.createdAt) (activeRender notes).itemOrder ∧
    ((archiveRender notes).emptyMessageShown = true ↔ notes = []) ∧
    (archiveRender notes).itemOrder = notes := by
  refine ⟨?_, rfl, ?_, ?_, ?_, ?_⟩
  · simp [activeRender, List.length_eq_zero]
  · simp [activeRender]
  · simpa [activeRender, List.pairwise_reverse, flip] using hsorted
  · simp [archiveRender, List.length_eq_zero]
  · cases notes with
    | nil => simp [archiveRender]
    | cons h t => simp [archiveRender]

/-- Claim C7, witness: the render theorem applied to a concrete two-note
collection in ascending creation order. -/
theorem c7_render_order_witness :
    ((activeRender
      [({ id := "1", title := "a", body := "x", createdAt := 1, archived := false } : Note),
       { id := "2", title := "b", body := "y", createdAt := 2, archived := false }]).emptyMessageShown = true ↔
      [({ id := "1", title := "a", body := "x", createdAt := 1, archived := false } : Note),
       { id := "2", title := "b", body := "y", createdAt := 2, archived := false }] = []) ∧
    (activeRender
      [({ id := "1", title := "a", body := "x", createdAt := 1, archived := false } : Note),
       { id := "2", title := "b", body := "y", createdAt := 2, archived := false }]).itemOrder =
      [({ id := "1", title := "a", body := "x", createdAt := 1, archived := false } : Note),
       { id := "2", title := "b", body := "y", createdAt := 2, archived := false }].reverse ∧
    (activeRender
      [({ id := "1", title := "a", body := "x", createdAt := 1, archived := false } : Note),
       { id := "2", title := "b", body := "y", createdAt := 2, archived := false }]).itemOrder.length =
      [({ id := "1", title := "a", body := "x", createdAt := 1, archived := false } : Note),
       { id := "2", title := "b", body := "y", createdAt := 2, archived := false }].length ∧
    List.Pairwise (fun a b : Note => b.createdAt ≤ a.createdAt)
      (activeRender
        [({ id := "1", title := "a", body := "x", createdAt := 1, archived := false } : Note),
         { id := "2", title := "b", body := "y", createdAt := 2, archived := false }]).itemOrder ∧
    ((archiveRender
      [({ id := "1", title := "a", body := "x", createdAt := 1, archived := false } : Note),
       { id := "2", title := "b", body := "y", createdAt := 2, archived := false }]).emptyMessageShown = true ↔
      [({ id := "1", title := "a", body := "x", createdAt := 1, archived := false } : Note),
       { id := "2", title := "b", body := "y", createdAt := 2, archived := false }] = []) ∧
    (archiveRender
      [({ id := "1", title := "a", body := "x", createdAt := 1, archived := false } : Note),
       { id := "2", title := "b", body := "y", createdAt := 2, archived := false }]).itemOrder =
      [({ id := "1", title := "a", body := "x", createdAt := 1, archived := false } : Note),
       { id := "2", title := "b", body := "y", createdAt := 2, archived := false }] :=
  c7_render_order
    [({ id := "1", title := "a", body := "x", createdAt := 1, archived := false } : Note),
     { id := "2", title := "b", body := "y", createdAt := 2, archived := false }]
    (by decide)

/-- Claim C8: blur-time validation marks the title error non-empty exactly
when the trimmed title is shorter than 3 characters and the body error
non-empty exactly when the trimmed body is shorter than 10 characters, yet
validation state never blocks submission — `handleFormSubmit` always
prevents default navigation, always emits `note-created` carrying
`{title, body, button}`, resets both fields and resets the
remaining-character counter to the 50-character maximum. -/
theorem c8_validation_never_blocks_submission (title content : String)
    (st : MakeNote.FormState) (button : Nat) :
    ((MakeNote.validateTitle title).1 ≠ "" ↔ title.trim.length < 3) ∧
    ((MakeNote.validateContent content).1 ≠ "" ↔ content.trim.length < 10) ∧
    (MakeNote.handleFormSubmit st button).preventedDefault = true ∧
    (MakeNote.handleFormSubmit st button).emitted =
      some { title := st.titleValue, body := st.contentValue, button := button } ∧
    (MakeNote.handleFormSubmit st button).newState.titleValue = "" ∧
    (MakeNote.handleFormSubmit st button).newState.contentValue = "" ∧
    (MakeNote.handleFormSubmit st button).newState.charCountText =
      "Remaining Character: 50" ∧
    MakeNote.maxTitleLength = 50 := by
  refine ⟨?_, ?_, rfl, rfl, rfl, rfl, ?_, rfl⟩
  · simp only [MakeNote.validateTitle, MakeNote.titleMinLength]
    by_cases h : title.trim.length < 3
    · simp [h]
    · simp [h]
  · simp only [MakeNote.validateContent, MakeNote.contentMinLength]
    by_cases h : content.trim.length < 10
    · simp [h]
    · simp [h]
  · rfl

/-- Claim C9: for every operation function other than `createNote`,
`deleteNote` and `archiveNote` — in particular for `unarchiveNote` —
`getButttonTextForOperation` returns the fallback label `Submit`, because
the branch meant for `Unarchive` also compares against `archiveNote`; a
control that triggered a successful unarchive cycle is therefore restored to
idle with the label `Submit`. -/
theorem c9_unarchive_gets_fallback_label (op : ApiOperation)
    (h1 : op ≠ ApiOperation.createNote) (h2 : op ≠ ApiOperation.deleteNote)
    (h3 : op ≠ ApiOperation.archiveNote) :
    getButttonTextForOperation op = "Submit" ∧
    (run .unarchiveNote [.gatewayResult true, .archiveFetchResult true,
      .activeFetchResult true]).buttonLabel = "Submit" := by
  revert op h1 h2 h3
  decide

/-- Claim C9, witness: the fallback theorem applied at `unarchiveNote`. -/
theorem c9_unarchive_gets_fallback_label_witness :
    getButttonTextForOperation ApiOperation.unarchiveNote = "Submit" ∧
    (run .unarchiveNote [.gatewayResult true, .archiveFetchResult true,
      .activeFetchResult true]).buttonLabel = "Submit" :=
  c9_unarchive_gets_fallback_label ApiOperation.unarchiveNote
    (by decide) (by decide) (by decide)

/-- Claim C10: for both List Views a failed fetch leaves the view's state
unchanged — the internal note collection keeps its previous value and no
render happens (the active view alerts, the archived view logs); a render is
performed exactly when the fetch result was successful. -/
theorem c10_failed_fetch_preserves_state (st : ViewState) (e : JsError)
    (r : ReadResult) :
    activeFetchNotes st (.err e) = (st, [.alerted]) ∧
    archiveFetchNotes st (.err e) = (st, [.logged]) ∧
    (ViewEffect.rendered ∈ (activeFetchNotes st r).2 ↔ ∃ d, r = .ok d) ∧
    (ViewEffect.rendered ∈ (archiveFetchNotes st r).2 ↔ ∃ d, r = .ok d) := by
  refine ⟨rfl, rfl, ?_, ?_⟩ <;> cases r <;> simp [activeFetchNotes, archiveFetchNotes]
